import Mathlib

/-
Verification of the note-rest-api-guide Express application.

The executable surface is two files:
  src/app.js      — mounts express.json(), an external User router (required
                    from "./User", not part of the excerpt), the payment
                    router, and a GET "/" handler; unmatched requests fall
                    through to the framework's default 404.
  src/payment.js  — one route, GET /users/:id/payment, echoing the path
                    parameter id and the query parameter filter.

The embedding below models requests as decoded path segments plus an
association list of query parameters; an absent query parameter is an
Option.none, which JavaScript template-literal interpolation renders as the
literal text "undefined".
-/

namespace NoteApp

/-- HTTP request methods relevant to the application. -/
inductive Method where
  | GET
  | POST
  | PUT
  | DELETE
  | PATCH
deriving DecidableEq

/-- An HTTP request as the handlers observe it: method, decoded path
segments (the path "/" is the empty list), query parameters as an
association list, headers, and the raw body. -/
structure Request where
  method : Method
  pathSegments : List String
  query : List (String × String)
  headers : List (String × String)
  body : String
deriving DecidableEq

/-- An HTTP response produced by an application handler: status code and
body string. -/
structure Response where
  status : Nat
  body : String
deriving DecidableEq

/-- JavaScript template-literal rendering of a possibly-absent string
value: an undefined value interpolates as the literal text "undefined",
any present string (the empty string included) interpolates as itself. -/
def renderJs : Option String → String
  | some s => s
  | none => "undefined"

/-- Embeds the handler body of router.get in src/payment.js lines 4-12:
userId is the matched path parameter, filter is req.query.filter, and the
response is res.send of the template string, which Express sends with
status 200. -/
def paymentHandler (req : Request) (id : String) : Response :=
  let userId := id
  let filter := req.query.lookup "filter"
  { status := 200, body := "User ID: " ++ userId ++ ", Filter: " ++ renderJs filter }

/-- Route matching for the pattern GET /users/:id/payment of
src/payment.js: the path must have exactly the three segments "users",
the id and "payment", and Express's :id placeholder matches any non-empty
segment. Returns the captured id on a match. -/
def matchPayment (req : Request) : Option String :=
  match req.method, req.pathSegments with
  | Method.GET, [a, id, b] =>
      if a = "users" ∧ b = "payment" ∧ id ≠ "" then some id else none
  | _, _ => none

/-- Embeds the handler of app.get of src/app.js lines 11-13: it ignores
the request entirely and sends "Hello World" with status 200. -/
def rootHandler (_req : Request) : Response :=
  { status := 200, body := "Hello World" }

/-- Route matching for app.get of src/app.js: method GET and path "/"
(the empty segment list). -/
def matchRoot (req : Request) : Bool :=
  decide (req.method = Method.GET) && req.pathSegments.isEmpty

/-- What the application produces for one request: either a response from
one of its handlers, or a fall-through to the framework's built-in default
404 response (the application defines no catch-all and no error
middleware). -/
inductive Outcome where
  | handled (r : Response)
  | frameworkDefault404
deriving DecidableEq

/-- Embeds the dispatch order of src/app.js: express.json() only annotates
the request with a parsed body that no handler in the repository reads;
the external User router — required from "./User", absent from the excerpt
and modelled from the spec as an opaque function userRoutes — is consulted
first, then the payment router, then the root handler; a request matching
nothing falls through to the framework's default 404. -/
def appDispatch (userRoutes : Request → Option Response) (req : Request) : Outcome :=
  match userRoutes req with
  | some r => Outcome.handled r
  | none =>
      match matchPayment req with
      | some id => Outcome.handled (paymentHandler req id)
      | none =>
          if matchRoot req then Outcome.handled (rootHandler req)
          else Outcome.frameworkDefault404

/-- Serving a sequence of requests: the source keeps no state between
requests (src has no module-level mutable binding), so a run is the
per-request dispatch mapped over the sequence. -/
def serveAll (userRoutes : Request → Option Response) (reqs : List Request) : List Outcome :=
  reqs.map (appDispatch userRoutes)

/-- The payment route matches exactly when the method is GET, the path is
/users/:id/payment and the id segment is non-empty. -/
theorem matchPayment_some (req : Request) (id : String)
    (hm : req.method = Method.GET)
    (hp : req.pathSegments = ["users", id, "payment"]) (hid : id ≠ "") :
    matchPayment req = some id := by
  unfold matchPayment
  rw [hm, hp]
  simp [hid]

/-- When the User router passes and the payment route matches, the app
answers with the payment handler's response. -/
theorem appDispatch_payment (u : Request → Option Response) (req : Request) (id : String)
    (hu : u req = none) (hmp : matchPayment req = some id) :
    appDispatch u req = Outcome.handled (paymentHandler req id) := by
  unfold appDispatch
  rw [hu, hmp]

/-- The payment handler is literally the template string with the filter
looked up in the query, at status 200. -/
theorem paymentHandler_body (req : Request) (id : String) :
    paymentHandler req id =
      { status := 200,
        body := "User ID: " ++ id ++ ", Filter: " ++ renderJs (req.query.lookup "filter") } :=
  rfl

/-- C1 counterexample: at id = "" the path /users//payment does not match
the route pattern (Express's :id needs a non-empty segment), so a GET
request there with filter=recent gets the framework 404, not the claimed
200 echo body. -/
theorem c1_empty_id_fails :
    appDispatch (fun _ => none)
      { method := Method.GET, pathSegments := ["users", "", "payment"],
        query := [("filter", "recent")], headers := [], body := "" } ≠
      Outcome.handled { status := 200, body := "User ID: , Filter: recent" } := by
  decide

/-- C1 (amended): for every non-empty string id and every string f, a GET
request to /users/<id>/payment whose filter query parameter is f matches
the payment route with parameter id, and the handler returns status 200
with body exactly "User ID: <id>, Filter: <f>". -/
theorem c1_payment_with_filter (req : Request) (id f : String)
    (hm : req.method = Method.GET)
    (hp : req.pathSegments = ["users", id, "payment"]) (hid : id ≠ "")
    (hq : req.query.lookup "filter" = some f) :
    matchPayment req = some id ∧
    paymentHandler req id =
      { status := 200, body := "User ID: " ++ id ++ ", Filter: " ++ f } := by
  refine ⟨matchPayment_some req id hm hp hid, ?_⟩
  unfold paymentHandler
  rw [hq]
  simp [renderJs]

/-- C1 witness: GET /users/42/payment?filter=recent is matched with id 42
and answered 200 with body "User ID: 42, Filter: recent". -/
theorem c1_payment_with_filter_witness :
    matchPayment
      { method := Method.GET, pathSegments := ["users", "42", "payment"],
        query := [("filter", "recent")], headers := [], body := "" } = some "42" ∧
    paymentHandler
      { method := Method.GET, pathSegments := ["users", "42", "payment"],
        query := [("filter", "recent")], headers := [], body := "" } "42" =
      { status := 200, body := "User ID: 42, Filter: recent" } :=
  c1_payment_with_filter _ "42" "recent" rfl rfl (by decide) rfl

/-- C2 counterexample: at id = "" the path /users//payment does not match
the route, so a GET request there without a filter parameter gets the
framework 404, not the claimed 200 body ending in "undefined". -/
theorem c2_empty_id_fails :
    appDispatch (fun _ => none)
      { method := Method.GET, pathSegments := ["users", "", "payment"],
        query := [], headers := [], body := "" } ≠
      Outcome.handled { status := 200, body := "User ID: , Filter: undefined" } := by
  decide

/-- C2 (amended): for every non-empty string id, a GET request to
/users/<id>/payment with no filter query parameter matches the route and
the handler returns status 200 with body exactly
"User ID: <id>, Filter: undefined" — the absent parameter renders as the
literal text "undefined". -/
theorem c2_payment_absent_filter (req : Request) (id : String)
    (hm : req.method = Method.GET)
    (hp : req.pathSegments = ["users", id, "payment"]) (hid : id ≠ "")
    (hq : req.query.lookup "filter" = none) :
    matchPayment req = some id ∧
    paymentHandler req id =
      { status := 200, body := "User ID: " ++ id ++ ", Filter: undefined" } := by
  refine ⟨matchPayment_some req id hm hp hid, ?_⟩
  unfold paymentHandler
  rw [hq]
  have hlit : (", Filter: " ++ "undefined" : String) = ", Filter: undefined" := rfl
  simp [renderJs, String.append_assoc, hlit]

/-- C2 witness: GET /users/42/payment with no query at all is matched and
answered 200 with body "User ID: 42, Filter: undefined". -/
theorem c2_payment_absent_filter_witness :
    matchPayment
      { method := Method.GET, pathSegments := ["users", "42", "payment"],
        query := [], headers := [], body := "" } = some "42" ∧
    paymentHandler
      { method := Method.GET, pathSegments := ["users", "42", "payment"],
        query := [], headers := [], body := "" } "42" =
      { status := 200, body := "User ID: 42, Filter: undefined" } :=
  c2_payment_absent_filter _ "42" rfl rfl (by decide) rfl

/-- A string never equals itself extended by the non-empty suffix
"undefined". -/
theorem ne_append_undefined (c : String) : c ≠ c ++ "undefined" := by
  intro h
  have hl := congrArg String.length h
  rw [String.length_append] at hl
  have h9 : ("undefined" : String).length = 9 := rfl
  omega

/-- C9 counterexample: at id = "" the path /users//payment does not match
the route, so a GET request there with an empty filter parameter gets the
framework 404, not the claimed 200 echo body. -/
theorem c9_empty_id_fails :
    appDispatch (fun _ => none)
      { method := Method.GET, pathSegments := ["users", "", "payment"],
        query := [("filter", "")], headers := [], body := "" } ≠
      Outcome.handled { status := 200, body := "User ID: , Filter: " } := by
  decide

/-- C9 (amended): for every non-empty string id, a GET request to
/users/<id>/payment with the filter parameter present but empty matches
the route and the handler returns status 200 with body exactly
"User ID: <id>, Filter: " — which differs from the absent-filter body
"User ID: <id>, Filter: undefined", so the endpoint distinguishes an
absent filter from an empty one. -/
theorem c9_payment_empty_filter (req : Request) (id : String)
    (hm : req.method = Method.GET)
    (hp : req.pathSegments = ["users", id, "payment"]) (hid : id ≠ "")
    (hq : req.query.lookup "filter" = some "") :
    matchPayment req = some id ∧
    paymentHandler req id =
      { status := 200, body := "User ID: " ++ id ++ ", Filter: " } ∧
    ("User ID: " ++ id ++ ", Filter: " : String) ≠
      "User ID: " ++ id ++ ", Filter: undefined" := by
  refine ⟨matchPayment_some req id hm hp hid, ?_, ?_⟩
  · unfold paymentHandler
    rw [hq]
    simp [renderJs]
  · have h9 : ("User ID: " ++ id ++ ", Filter: undefined" : String) =
        ("User ID: " ++ id ++ ", Filter: ") ++ "undefined" := by
      simp [String.append_assoc]
    rw [h9]
    exact ne_append_undefined _

/-- C9 witness: GET /users/42/payment?filter= (empty value) is matched and
answered 200 with body "User ID: 42, Filter: ", which is not the
absent-filter body. -/
theorem c9_payment_empty_filter_witness :
    matchPayment
      { method := Method.GET, pathSegments := ["users", "42", "payment"],
        query := [("filter", "")], headers := [], body := "" } = some "42" ∧
    paymentHandler
      { method := Method.GET, pathSegments := ["users", "42", "payment"],
        query := [("filter", "")], headers := [], body := "" } "42" =
      { status := 200, body := "User ID: 42, Filter: " } ∧
    ("User ID: " ++ "42" ++ ", Filter: " : String) ≠
      "User ID: " ++ "42" ++ ", Filter: undefined" :=
  c9_payment_empty_filter _ "42" rfl rfl (by decide) rfl

/-- C4: every GET request to the path "/" that the external User router
(mounted before the root handler, opaque per the spec) does not intercept
is answered 200 with body "Hello World", whatever its headers, query or
body — the handler reads nothing from the request and has no effects. -/
theorem c4_root_hello_world (u : Request → Option Response) (req : Request)
    (hm : req.method = Method.GET) (hp : req.pathSegments = [])
    (hu : u req = none) :
    appDispatch u req = Outcome.handled { status := 200, body := "Hello World" } := by
  have hmp : matchPayment req = none := by
    unfold matchPayment
    rw [hm, hp]
  have hr : matchRoot req = true := by
    simp [matchRoot, hm, hp]
  unfold appDispatch
  rw [hu, hmp]
  simp [hr, rootHandler]

/-- C4 witness: a GET "/" with arbitrary headers, a query string and a
body is still answered 200 "Hello World". -/
theorem c4_root_hello_world_witness :
    appDispatch (fun _ => none)
      { method := Method.GET, pathSegments := [],
        query := [("x", "1")], headers := [("X-Custom", "abc"), ("Accept", "text/html")],
        body := "ignored" } =
      Outcome.handled { status := 200, body := "Hello World" } :=
  c4_root_hello_world (fun _ => none) _ rfl rfl rfl

/-- C5: a request that the User router does not handle, that does not
match GET /users/:id/payment and does not match GET "/" falls through to
the framework's default 404 outcome; the application has no handler and no
error middleware that could run instead. -/
theorem c5_unmatched_framework404 (u : Request → Option Response) (req : Request)
    (hu : u req = none) (hmp : matchPayment req = none)
    (hr : matchRoot req = false) :
    appDispatch u req = Outcome.frameworkDefault404 := by
  unfold appDispatch
  rw [hu, hmp]
  simp [hr]

/-- C5 witness: GET /api/nope matches no route and yields the framework
default 404. -/
theorem c5_unmatched_framework404_witness :
    appDispatch (fun _ => none)
      { method := Method.GET, pathSegments := ["api", "nope"],
        query := [], headers := [], body := "" } =
      Outcome.frameworkDefault404 :=
  c5_unmatched_framework404 (fun _ => none) _ rfl (by decide) (by decide)

/-- C6: the payment route has no validation and no failure branch: any
GET /users/:id/payment with a non-empty id segment — however malformed —
matches, and the handler unconditionally returns status 200 with the one
templated string. -/
theorem c6_no_error_conditions (req : Request) (id : String)
    (hm : req.method = Method.GET)
    (hp : req.pathSegments = ["users", id, "payment"]) (hid : id ≠ "") :
    matchPayment req = some id ∧
    (paymentHandler req id).status = 200 ∧
    paymentHandler req id =
      { status := 200,
        body := "User ID: " ++ id ++ ", Filter: " ++ renderJs (req.query.lookup "filter") } :=
  ⟨matchPayment_some req id hm hp hid, rfl, rfl⟩

/-- C6 witness: a thoroughly malformed id segment still matches and gets
the same 200 templated answer. -/
theorem c6_no_error_conditions_witness :
    matchPayment
      { method := Method.GET, pathSegments := ["users", "<not-a-number>!!", "payment"],
        query := [], headers := [], body := "" } = some "<not-a-number>!!" ∧
    (paymentHandler
      { method := Method.GET, pathSegments := ["users", "<not-a-number>!!", "payment"],
        query := [], headers := [], body := "" } "<not-a-number>!!").status = 200 ∧
    paymentHandler
      { method := Method.GET, pathSegments := ["users", "<not-a-number>!!", "payment"],
        query := [], headers := [], body := "" } "<not-a-number>!!" =
      { status := 200,
        body := "User ID: " ++ "<not-a-number>!!" ++ ", Filter: " ++
          renderJs (List.lookup "filter" ([] : List (String × String))) } :=
  c6_no_error_conditions _ "<not-a-number>!!" rfl rfl (by decide)

/-- C7: serving the identical request any number of times produces the
identical response each time; the embedding carries no state between
requests because the source mutates none (the only console.log in the
payment handler is commented out, and no module-level binding is ever
written after startup). -/
theorem c7_idempotent (u : Request → Option Response) (req : Request) (n : Nat) :
    serveAll u (List.replicate n req) = List.replicate n (appDispatch u req) := by
  simp [serveAll, List.map_replicate]

/-- C8: the response to a request is the same function of that request in
every run, whatever requests came before: the last answer of a run ending
in req is appDispatch of req, for any two histories alike. -/
theorem c8_history_independent (u : Request → Option Response)
    (hist hist2 : List Request) (req : Request) :
    (serveAll u (hist ++ [req])).getLast? = some (appDispatch u req) ∧
    (serveAll u (hist ++ [req])).getLast? = (serveAll u (hist2 ++ [req])).getLast? := by
  constructor <;> simp [serveAll]

/-- C10: two requests reaching the payment endpoint that agree on the id
segment and on the filter query parameter get identical responses, however
much their bodies, headers or other query parameters differ. -/
theorem c10_depends_only_on_id_and_filter (u : Request → Option Response)
    (r1 r2 : Request) (id : String) (hid : id ≠ "")
    (hm1 : r1.method = Method.GET) (hm2 : r2.method = Method.GET)
    (hp1 : r1.pathSegments = ["users", id, "payment"])
    (hp2 : r2.pathSegments = ["users", id, "payment"])
    (hq : r1.query.lookup "filter" = r2.query.lookup "filter")
    (hu1 : u r1 = none) (hu2 : u r2 = none) :
    appDispatch u r1 = appDispatch u r2 := by
  rw [appDispatch_payment u r1 id hu1 (matchPayment_some r1 id hm1 hp1 hid),
      appDispatch_payment u r2 id hu2 (matchPayment_some r2 id hm2 hp2 hid)]
  unfold paymentHandler
  rw [hq]

/-- C10 witness: same id and filter but different extra query parameter,
different headers and different body give the same response. -/
theorem c10_depends_only_on_id_and_filter_witness :
    appDispatch (fun _ => none)
      { method := Method.GET, pathSegments := ["users", "7", "payment"],
        query := [("filter", "recent"), ("page", "2")],
        headers := [("Content-Type", "application/json")], body := "some-body" } =
    appDispatch (fun _ => none)
      { method := Method.GET, pathSegments := ["users", "7", "payment"],
        query := [("filter", "recent")],
        headers := [], body := "another-body" } :=
  c10_depends_only_on_id_and_filter (fun _ => none) _ _ "7" (by decide)
    rfl rfl rfl rfl rfl rfl rfl

end NoteApp
